import Mathlib

/-!
Shallow embedding of the n8n-nodes-stellar package:
the network-configuration resolver (`src/nodes/Stellar/constants/networks.ts`),
the operation dispatcher (`Stellar.node.ts`, method `execute`) and the trigger
subscription manager (`StellarTrigger.node.ts`, method `trigger`).

External effects (Horizon/Soroban network traffic, SDK key derivation, XDR
parsing, JSON parsing) are modelled as an explicit environment `Env`; every
network request a dispatch performs is recorded in an ordered call list, so
"no network call was attempted" is the statement that this list is empty.
JavaScript string truthiness (`!s` is true for both `undefined` and `""`)
is modelled by `truthy` on `Option String`.
-/

/-- A small JSON value model for operation payloads and network responses. -/
inductive Json where
  | null : Json
  | bool (b : Bool) : Json
  | num (n : Int) : Json
  | str (s : String) : Json
  | arr (elems : List Json) : Json
  | obj (fields : List (String × Json)) : Json
deriving Repr, BEq

/-- Field lookup on a JSON object; JS `undefined` for a missing field is
modelled as `Json.null`. -/
def jGet (j : Json) (key : String) : Json :=
  match j with
  | Json.obj fields =>
    match fields.find? (fun kv => kv.1 = key) with
    | some kv => kv.2
    | none => Json.null
  | _ => Json.null

/-- String content of a JSON field, empty when absent or not a string. -/
def jGetStr (j : Json) (key : String) : String :=
  match jGet j key with
  | Json.str s => s
  | _ => ""

/-- Does the JSON object carry an `error` field?  Models
`StellarSdk.SorobanRpc.Api.isSimulationError`. -/
def isSimulationError (j : Json) : Bool :=
  match j with
  | Json.obj fields => fields.any (fun kv => kv.1 = "error")
  | _ => false

/-- The four values of the `network` credential selector
(`NetworkType` in `constants/networks.ts`). -/
inductive NetworkType where
  | public | testnet | futurenet | custom
deriving Repr, DecidableEq

/-- JS string truthiness of an optional string: `undefined` and `""` are
falsy, everything else is truthy. -/
def truthy : Option String → Bool
  | none => false
  | some s => !(s == "")

/-- Modelled from the `@stellar/stellar-sdk` `Networks` constants (the SDK is
an external dependency, not part of this repository's sources); these are the
well-known Stellar network passphrases the SDK exports. -/
def Networks.PUBLIC : String := "Public Global Stellar Network ; September 2015"

/-- Modelled from the SDK: `StellarSdk.Networks.TESTNET`. -/
def Networks.TESTNET : String := "Test SDF Network ; September 2015"

/-- Modelled from the SDK: `StellarSdk.Networks.FUTURENET`. -/
def Networks.FUTURENET : String := "Test SDF Future Network ; October 2022"

/-- `NETWORK_PASSPHRASES` record; the TS record has no `custom` key, so the
lookup is partial (`none` models the absent key). -/
def NETWORK_PASSPHRASES : NetworkType → Option String
  | NetworkType.public => some Networks.PUBLIC
  | NetworkType.testnet => some Networks.TESTNET
  | NetworkType.futurenet => some Networks.FUTURENET
  | NetworkType.custom => none

/-- `HORIZON_URLS` record from `constants/networks.ts`. -/
def HORIZON_URLS : NetworkType → Option String
  | NetworkType.public => some "https://horizon.stellar.org"
  | NetworkType.testnet => some "https://horizon-testnet.stellar.org"
  | NetworkType.futurenet => some "https://horizon-futurenet.stellar.org"
  | NetworkType.custom => none

/-- `SOROBAN_RPC_URLS` record from `constants/networks.ts`. -/
def SOROBAN_RPC_URLS : NetworkType → Option String
  | NetworkType.public => some "https://soroban.stellar.org"
  | NetworkType.testnet => some "https://soroban-testnet.stellar.org"
  | NetworkType.futurenet => some "https://rpc-futurenet.stellar.org"
  | NetworkType.custom => none

/-- `FRIENDBOT_URLS` record (keys `testnet` and `futurenet` only). -/
def FRIENDBOT_URLS : NetworkType → Option String
  | NetworkType.testnet => some "https://friendbot.stellar.org"
  | NetworkType.futurenet => some "https://friendbot-futurenet.stellar.org"
  | _ => none

/-- `getHorizonUrl` from `constants/networks.ts`: for `custom` the override
must be truthy or the function throws; otherwise the record constant. -/
def getHorizonUrl (network : NetworkType) (customUrl : Option String) :
    Except String String :=
  if network = NetworkType.custom then
    if truthy customUrl then Except.ok (customUrl.getD "")
    else Except.error "Custom Horizon URL required for custom network"
  else Except.ok ((HORIZON_URLS network).getD "")

/-- `getNetworkPassphrase` from `constants/networks.ts`. -/
def getNetworkPassphrase (network : NetworkType) (customPassphrase : Option String) :
    Except String String :=
  if network = NetworkType.custom then
    if truthy customPassphrase then Except.ok (customPassphrase.getD "")
    else Except.error "Custom network passphrase required for custom network"
  else Except.ok ((NETWORK_PASSPHRASES network).getD "")

/-- `getSorobanRpcUrl` from `constants/networks.ts`. -/
def getSorobanRpcUrl (network : NetworkType) (customUrl : Option String) :
    Except String String :=
  if network = NetworkType.custom then
    if truthy customUrl then Except.ok (customUrl.getD "")
    else Except.error "Custom Soroban RPC URL required for custom network"
  else Except.ok ((SOROBAN_RPC_URLS network).getD "")

/-- `DEFAULT_SETTINGS` from `constants/networks.ts`. -/
structure DefaultSettings where
  baseFee : Nat
  timeout : Nat
deriving Repr, DecidableEq

def DEFAULT_SETTINGS : DefaultSettings := { baseFee := 100, timeout := 30 }

/-- A Stellar keypair (key derivation itself is SDK-external; the model keeps
the public key and the secret). -/
structure Keypair where
  pub : String
  secret : String
deriving Repr, DecidableEq

/-- A Stellar asset as built by the dispatcher: native XLM or an
alphanumeric code/issuer pair. -/
inductive Asset where
  | native : Asset
  | alphanum (code issuer : String) : Asset
deriving Repr, DecidableEq

/-- The asset-construction idiom used throughout `Stellar.node.ts`:
`code === 'XLM' || !issuer ? Asset.native() : new Asset(code, issuer)`. -/
def assetFrom (code issuer : String) : Asset :=
  if code = "XLM" ∨ issuer = "" then Asset.native else Asset.alphanum code issuer

/-- One SDK operation added to a transaction builder. -/
inductive TxOp where
  | createAccount (destination startingBalance : String)
  | accountMerge (destination : String)
  | manageData (name : String) (value : Option String)
  | setOptionsHome (homeDomain : String)
  | setOptionsInflation (inflationDest : String)
  | setOptionsEmpty
  | payment (destination : String) (asset : Asset) (amount : String)
  | pathPaymentStrictReceive (sendAsset : Asset) (sendMax destination : String)
      (destAsset : Asset) (destAmount : String)
  | createClaimableBalance (asset : Asset) (amount : String) (claimants : List String)
  | claimClaimableBalance (balanceId : String)
  | changeTrust (asset : Asset) (limit : Option String)
  | manageSellOffer (selling buying : Asset) (amount price : String) (offerId : Option String)
  | manageBuyOffer (selling buying : Asset) (buyAmount price : String)
  | contractCall (contractId functionName : String) (args : List Json)
deriving Repr, BEq

/-- A built transaction.  The sequence number obtained from the loaded source
account is abstracted away (it never influences control flow here); the list
of signatures records which keys signed. -/
structure Tx where
  source : String
  ops : List TxOp
  passphrase : String
  fee : String
  timeout : Nat
  signatures : List String
deriving Repr, BEq

/-- Every kind of network request the node can issue, with the endpoint it
goes to.  "Dispatching without a network call" means the recorded list of
these is empty. -/
inductive NetCall where
  | loadAccount (horizonUrl accountId : String)
  | httpGet (url : String)
  | submitTx (horizonUrl : String) (tx : Tx)
  | assetsQuery (horizonUrl code issuer : String)
  | orderbook (horizonUrl : String) (selling buying : Asset)
  | offersForAccount (horizonUrl accountId : String)
  | tradesQuery (horizonUrl : String) (pair : Option (Asset × Asset))
  | transactionQuery (horizonUrl txHash : String)
  | ledgersLatest (horizonUrl : String)
  | ledgerBySeq (horizonUrl : String) (sequence : Int)
  | feeStats (horizonUrl : String)
  | sorobanGetHealth (rpcUrl : String)
  | sorobanGetAccount (rpcUrl accountId : String)
  | sorobanSimulate (rpcUrl : String) (tx : Tx)
  | sorobanSend (rpcUrl : String) (tx : Tx)
deriving Repr, BEq

/-- The external world: network responses and the SDK/runtime primitives the
node delegates to (key generation and derivation, JSON parsing, XDR
encoding/decoding).  Each can fail, modelling a thrown exception. -/
structure Env where
  oracle : NetCall → Except String Json
  keypairFromSecret : String → Except String Keypair
  randomKeypair : Keypair
  jsonParse : String → Except String Json
  parseXdr : String → String → Except String Tx
  toXdr : Tx → String

/-- The node parameters of one input item, after the host resolved each
`getNodeParameter` call (defaults from the node description applied). -/
structure ItemParams where
  resource : String := ""
  operation : String := ""
  accountId : String := ""
  destination : String := ""
  amount : String := ""
  assetCode : String := ""
  assetIssuer : String := ""
  dataName : String := ""
  dataValue : String := ""
  homeDomain : String := ""
  inflationDest : String := ""
  claimants : String := ""
  balanceId : String := ""
  trustLimit : String := ""
  sellingAssetCode : String := ""
  sellingAssetIssuer : String := ""
  buyingAssetCode : String := ""
  buyingAssetIssuer : String := ""
  price : String := ""
  offerId : String := ""
  transactionHash : String := ""
  xdr : String := ""
  ledgerSequence : Int := 0
  contractId : String := ""
  functionName : String := ""
  functionArgs : String := ""
deriving Repr, BEq

/-- The `stellarNetwork` credential fields (`StellarNetwork.credentials.ts`);
unset text fields arrive as `""`, hence `Option String` with `truthy`. -/
structure Credentials where
  network : NetworkType
  customHorizonUrl : Option String := none
  customNetworkPassphrase : Option String := none
  secretKey : Option String := none
  sorobanRpcUrl : Option String := none
deriving Repr

/-- The per-execution context `execute` sets up before its item loop
(lines 513-527 of `Stellar.node.ts`). -/
structure Ctx where
  horizonUrl : String
  networkPassphrase : String
  keypair : Option Keypair
  network : NetworkType
  sorobanRpcUrl : Option String
deriving Repr

/-- The `fee`/`timeout` every transaction builder in the file uses. -/
def stdFee : String := toString DEFAULT_SETTINGS.baseFee

/-- Shared shape of all "load source account, build, sign, submit" branches:
records the `loadAccount` call, and on success the `submitTransaction` call
of the transaction carrying `ops`, signed by `kp`. -/
def buildSignSubmit (env : Env) (ctx : Ctx) (kp : Keypair) (ops : List TxOp) :
    List NetCall × Except String Json :=
  let loadC := NetCall.loadAccount ctx.horizonUrl kp.pub
  match env.oracle loadC with
  | Except.error e => ([loadC], Except.error e)
  | Except.ok _ =>
    let tx : Tx := { source := kp.pub, ops := ops, passphrase := ctx.networkPassphrase,
                     fee := stdFee, timeout := DEFAULT_SETTINGS.timeout,
                     signatures := [kp.pub] }
    let subC := NetCall.submitTx ctx.horizonUrl tx
    ([loadC, subC], env.oracle subC)

/-- `claimantsData.map(c => new Claimant(c.destination, ...))` after
`JSON.parse`: extract each claimant's destination (a non-array parse result
makes the subsequent `.map` throw). -/
def claimantDestinations (j : Json) : Except String (List String) :=
  match j with
  | Json.arr l => Except.ok (l.map (fun c => jGetStr c "destination"))
  | _ => Except.error "claimantsData.map is not a function"

/-- The per-item dispatch of `Stellar.execute` (lines 529-1001 of
`Stellar.node.ts`): resolves the (resource, operation) pair, checks
preconditions, and performs the branch's network calls in order.  Returns the
ordered list of network calls attempted for this item together with the
item's result (`Except.error` models a thrown error). -/
def dispatchItem (env : Env) (ctx : Ctx) (p : ItemParams) :
    List NetCall × Except String Json :=
  if p.resource = "account" then
    if p.operation = "generateKeypair" then
      ([], Except.ok (Json.obj [("publicKey", Json.str env.randomKeypair.pub),
                                ("secretKey", Json.str env.randomKeypair.secret)]))
    else if p.operation = "getInfo" then
      let c := NetCall.loadAccount ctx.horizonUrl p.accountId
      ([c], (env.oracle c).map (fun a => Json.obj
        [("id", jGet a "id"), ("accountId", jGet a "account_id"),
         ("sequence", jGet a "sequence"), ("balances", jGet a "balances"),
         ("subentryCount", jGet a "subentry_count"),
         ("thresholds", jGet a "thresholds"), ("signers", jGet a "signers"),
         ("data", jGet a "data"), ("flags", jGet a "flags")]))
    else if p.operation = "fundTestnet" then
      match FRIENDBOT_URLS ctx.network with
      | none => ([], Except.error "Friendbot only available on testnet and futurenet")
      | some friendbotUrl =>
        let c := NetCall.httpGet (friendbotUrl ++ "?addr=" ++ p.accountId)
        ([c], env.oracle c)
    else if p.operation = "createAccount" then
      match ctx.keypair with
      | none => ([], Except.error "Secret key required for creating accounts")
      | some kp => buildSignSubmit env ctx kp [TxOp.createAccount p.destination p.amount]
    else if p.operation = "mergeAccount" then
      match ctx.keypair with
      | none => ([], Except.error "Secret key required for merging accounts")
      | some kp => buildSignSubmit env ctx kp [TxOp.accountMerge p.destination]
    else if p.operation = "setData" then
      match ctx.keypair with
      | none => ([], Except.error "Secret key required for setting data")
      | some kp =>
        buildSignSubmit env ctx kp
          [TxOp.manageData p.dataName (if p.dataValue = "" then none else some p.dataValue)]
    else if p.operation = "setOptions" then
      match ctx.keypair with
      | none => ([], Except.error "Secret key required for setting options")
      | some kp =>
        let ops :=
          if p.homeDomain = "" ∧ p.inflationDest = "" then [TxOp.setOptionsEmpty]
          else (if p.homeDomain ≠ "" then [TxOp.setOptionsHome p.homeDomain] else [])
            ++ (if p.inflationDest ≠ "" then [TxOp.setOptionsInflation p.inflationDest] else [])
        buildSignSubmit env ctx kp ops
    else ([], Except.error ("Unknown account operation: " ++ p.operation))
  else if p.resource = "payment" then
    if p.operation = "sendPayment" then
      match ctx.keypair with
      | none => ([], Except.error "Secret key required for payments")
      | some kp =>
        let asset := assetFrom p.assetCode p.assetIssuer
        buildSignSubmit env ctx kp [TxOp.payment p.destination asset p.amount]
    else if p.operation = "pathPayment" then
      match ctx.keypair with
      | none => ([], Except.error "Secret key required for path payments")
      | some kp =>
        let destAsset := assetFrom p.assetCode p.assetIssuer
        buildSignSubmit env ctx kp
          [TxOp.pathPaymentStrictReceive Asset.native p.amount p.destination destAsset p.amount]
    else if p.operation = "createClaimableBalance" then
      match ctx.keypair with
      | none => ([], Except.error "Secret key required")
      | some kp =>
        let asset := assetFrom p.assetCode p.assetIssuer
        match env.jsonParse p.claimants with
        | Except.error e => ([], Except.error e)
        | Except.ok cj =>
          match claimantDestinations cj with
          | Except.error e => ([], Except.error e)
          | Except.ok dests =>
            buildSignSubmit env ctx kp [TxOp.createClaimableBalance asset p.amount dests]
    else if p.operation = "claimBalance" then
      match ctx.keypair with
      | none => ([], Except.error "Secret key required")
      | some kp => buildSignSubmit env ctx kp [TxOp.claimClaimableBalance p.balanceId]
    else ([], Except.error ("Unknown payment operation: " ++ p.operation))
  else if p.resource = "asset" then
    if p.operation = "changeTrust" then
      match ctx.keypair with
      | none => ([], Except.error "Secret key required for trustlines")
      | some kp =>
        if p.assetIssuer = "" then
          ([], Except.error "Asset issuer required for non-native assets")
        else
          let asset := Asset.alphanum p.assetCode p.assetIssuer
          buildSignSubmit env ctx kp
            [TxOp.changeTrust asset (if p.trustLimit = "" then none else some p.trustLimit)]
    else if p.operation = "getAssetInfo" then
      if p.assetCode = "XLM" ∨ p.assetIssuer = "" then
        ([], Except.ok (Json.obj [("type", Json.str "native"),
                                  ("code", Json.str "XLM"), ("issuer", Json.null)]))
      else
        let c := NetCall.assetsQuery ctx.horizonUrl p.assetCode p.assetIssuer
        ([c], (env.oracle c).map (fun records =>
          match records with
          | Json.arr (r :: _) => r
          | _ => Json.obj [("error", Json.str "Asset not found")]))
    else if p.operation = "issueAsset" then
      match ctx.keypair with
      | none => ([], Except.error "Secret key required")
      | some kp =>
        let asset := Asset.alphanum p.assetCode kp.pub
        buildSignSubmit env ctx kp [TxOp.payment p.destination asset p.amount]
    else ([], Except.error ("Unknown asset operation: " ++ p.operation))
  else if p.resource = "dex" then
    if p.operation = "getOrderbook" then
      let selling := assetFrom p.sellingAssetCode p.sellingAssetIssuer
      let buying := assetFrom p.buyingAssetCode p.buyingAssetIssuer
      let c := NetCall.orderbook ctx.horizonUrl selling buying
      ([c], env.oracle c)
    else if p.operation = "createSellOffer" then
      match ctx.keypair with
      | none => ([], Except.error "Secret key required")
      | some kp =>
        let selling := assetFrom p.sellingAssetCode p.sellingAssetIssuer
        let buying := assetFrom p.buyingAssetCode p.buyingAssetIssuer
        buildSignSubmit env ctx kp [TxOp.manageSellOffer selling buying p.amount p.price none]
    else if p.operation = "createBuyOffer" then
      match ctx.keypair with
      | none => ([], Except.error "Secret key required")
      | some kp =>
        let selling := assetFrom p.sellingAssetCode p.sellingAssetIssuer
        let buying := assetFrom p.buyingAssetCode p.buyingAssetIssuer
        buildSignSubmit env ctx kp [TxOp.manageBuyOffer selling buying p.amount p.price]
    else if p.operation = "cancelOffer" then
      match ctx.keypair with
      | none => ([], Except.error "Secret key required")
      | some kp =>
        buildSignSubmit env ctx kp
          [TxOp.manageSellOffer Asset.native Asset.native "0" "1" (some p.offerId)]
    else if p.operation = "listOffers" then
      match ctx.keypair with
      | none => ([], Except.error "Secret key required to list your offers")
      | some kp =>
        let c := NetCall.offersForAccount ctx.horizonUrl kp.pub
        ([c], (env.oracle c).map (fun r => Json.obj [("offers", r)]))
    else if p.operation = "getTrades" then
      let pair := if p.assetCode ≠ "XLM" ∧ p.assetIssuer ≠ "" then
          some (Asset.native, Asset.alphanum p.assetCode p.assetIssuer)
        else none
      let c := NetCall.tradesQuery ctx.horizonUrl pair
      ([c], (env.oracle c).map (fun r => Json.obj [("trades", r)]))
    else ([], Except.error ("Unknown DEX operation: " ++ p.operation))
  else if p.resource = "transaction" then
    if p.operation = "getTransaction" then
      let c := NetCall.transactionQuery ctx.horizonUrl p.transactionHash
      ([c], env.oracle c)
    else if p.operation = "signXdr" then
      match ctx.keypair with
      | none => ([], Except.error "Secret key required for signing")
      | some kp =>
        match env.parseXdr p.xdr ctx.networkPassphrase with
        | Except.error e => ([], Except.error e)
        | Except.ok tx =>
          let signed : Tx := { tx with signatures := tx.signatures ++ [kp.pub] }
          ([], Except.ok (Json.obj
            [("signedXdr", Json.str (env.toXdr signed)),
             ("signatures", Json.num (signed.signatures.length : Int))]))
    else if p.operation = "submitXdr" then
      match env.parseXdr p.xdr ctx.networkPassphrase with
      | Except.error e => ([], Except.error e)
      | Except.ok tx =>
        let c := NetCall.submitTx ctx.horizonUrl tx
        ([c], env.oracle c)
    else ([], Except.error ("Unknown transaction operation: " ++ p.operation))
  else if p.resource = "ledger" then
    if p.operation = "getLatest" then
      let c := NetCall.ledgersLatest ctx.horizonUrl
      ([c], (env.oracle c).map (fun r =>
        match r with
        | Json.arr (x :: _) => x
        | _ => Json.null))
    else if p.operation = "getBySequence" then
      let c := NetCall.ledgerBySeq ctx.horizonUrl p.ledgerSequence
      ([c], env.oracle c)
    else if p.operation = "getFeeStats" then
      let c := NetCall.feeStats ctx.horizonUrl
      ([c], env.oracle c)
    else ([], Except.error ("Unknown ledger operation: " ++ p.operation))
  else if p.resource = "soroban" then
    match (if truthy ctx.sorobanRpcUrl then Except.ok (ctx.sorobanRpcUrl.getD "")
           else getSorobanRpcUrl ctx.network none) with
    | Except.error e => ([], Except.error e)
    | Except.ok rpcUrl =>
      if p.operation = "getHealth" then
        let c := NetCall.sorobanGetHealth rpcUrl
        ([c], env.oracle c)
      else if p.operation = "simulateTransaction" ∨ p.operation = "invokeContract" then
        match ctx.keypair with
        | none => ([], Except.error "Secret key required for contract operations")
        | some kp =>
          match env.jsonParse p.functionArgs with
          | Except.error e => ([], Except.error e)
          | Except.ok argsJson =>
            match argsJson with
            | Json.arr args =>
              let getAccC := NetCall.sorobanGetAccount rpcUrl kp.pub
              (match env.oracle getAccC with
               | Except.error e => ([getAccC], Except.error e)
               | Except.ok _ =>
                 let tx : Tx := { source := kp.pub,
                                  ops := [TxOp.contractCall p.contractId p.functionName args],
                                  passphrase := ctx.networkPassphrase, fee := stdFee,
                                  timeout := DEFAULT_SETTINGS.timeout, signatures := [] }
                 let simC := NetCall.sorobanSimulate rpcUrl tx
                 match env.oracle simC with
                 | Except.error e => ([getAccC, simC], Except.error e)
                 | Except.ok simResult =>
                   if p.operation = "simulateTransaction" then
                     ([getAccC, simC], Except.ok simResult)
                   else if isSimulationError simResult then
                     ([getAccC, simC],
                      Except.error ("Simulation failed: " ++ jGetStr simResult "error"))
                   else
                     let prepared : Tx := { tx with signatures := [kp.pub] }
                     let sendC := NetCall.sorobanSend rpcUrl prepared
                     ([getAccC, simC, sendC], env.oracle sendC))
            | _ => ([], Except.error "args.map is not a function")
      else ([], Except.error ("Unknown soroban operation: " ++ p.operation))
  else ([], Except.error ("Unknown resource: " ++ p.resource))

/-- The failed-item payload pushed under `continueOnFail`
(line 1006 of `Stellar.node.ts`): `{ json: { error: message } }`. -/
def errorPayload (e : String) : Json := Json.obj [("error", Json.str e)]

/-- The item loop of `Stellar.execute` (lines 529-1013): each item is
dispatched in order; a failure is recorded as `errorPayload` and processing
continues when `continueOnFail` holds, otherwise the error is rethrown
(aborting the batch, so no list of results is produced at all). -/
def executeLoop (env : Env) (ctx : Ctx) (continueOnFail : Bool) :
    List ItemParams → Except String (List Json)
  | [] => Except.ok []
  | p :: ps =>
    match (dispatchItem env ctx p).2 with
    | Except.ok j => (executeLoop env ctx continueOnFail ps).map (fun rest => j :: rest)
    | Except.error e =>
      if continueOnFail then
        (executeLoop env ctx continueOnFail ps).map (fun rest => errorPayload e :: rest)
      else Except.error e

/-- Keypair setup before the loop (lines 524-527): only a truthy secret key
is fed to `Keypair.fromSecret`, which may itself throw. -/
def keypairSetup (env : Env) (cred : Credentials) : Except String (Option Keypair) :=
  if truthy cred.secretKey then
    (env.keypairFromSecret (cred.secretKey.getD "")).map some
  else Except.ok none

/-- `Stellar.execute` (lines 506-1014): resolve the Horizon URL and network
passphrase from the credentials (throwing on misconfiguration), derive the
keypair, then run the item loop. -/
def execute (env : Env) (cred : Credentials) (continueOnFail : Bool)
    (items : List ItemParams) : Except String (List Json) :=
  match getHorizonUrl cred.network cred.customHorizonUrl with
  | Except.error e => Except.error e
  | Except.ok horizonUrl =>
    match getNetworkPassphrase cred.network cred.customNetworkPassphrase with
    | Except.error e => Except.error e
    | Except.ok networkPassphrase =>
      match keypairSetup env cred with
      | Except.error e => Except.error e
      | Except.ok kp =>
        executeLoop env
          { horizonUrl := horizonUrl, networkPassphrase := networkPassphrase,
            keypair := kp, network := cred.network,
            sorobanRpcUrl := cred.sorobanRpcUrl }
          continueOnFail items

/-- The normalized outcome of one item under `continueOnFail`: the normal
payload, or the `{error}` payload when the dispatch failed. -/
def itemOutcome (env : Env) (ctx : Ctx) (p : ItemParams) : Json :=
  match (dispatchItem env ctx p).2 with
  | Except.ok j => j
  | Except.error e => errorPayload e

/-- The (resource, operation) pairs whose branch in `Stellar.execute` begins
with the `if (!keypair) throw new Error('Secret key required…')` guard. -/
def requiresSigningKey (resource operation : String) : Bool :=
  if resource = "account" then
    operation == "createAccount" || operation == "mergeAccount" ||
    operation == "setData" || operation == "setOptions"
  else if resource = "payment" then
    operation == "sendPayment" || operation == "pathPayment" ||
    operation == "createClaimableBalance" || operation == "claimBalance"
  else if resource = "asset" then
    operation == "changeTrust" || operation == "issueAsset"
  else if resource = "dex" then
    operation == "createSellOffer" || operation == "createBuyOffer" ||
    operation == "cancelOffer" || operation == "listOffers"
  else if resource = "transaction" then
    operation == "signXdr"
  else if resource = "soroban" then
    operation == "simulateTransaction" || operation == "invokeContract"
  else false

/-- The Soroban RPC URL the soroban branch uses (line 956 of
`Stellar.node.ts`): `sorobanRpcUrl || getSorobanRpcUrl(network)` — a truthy
credential override wins on every network. -/
def resolveSorobanRpcUrlExec (ctx : Ctx) : Except String String :=
  if truthy ctx.sorobanRpcUrl then Except.ok (ctx.sorobanRpcUrl.getD "")
  else getSorobanRpcUrl ctx.network none

/-- Whether an error message is the `Secret key required…` precondition
message family (all of them share this 19-character head). -/
def secretKeyMsg (e : String) : Bool := e.take 19 == "Secret key required"

/-- Subscription lifecycle of the trigger: `Idle → Streaming → Closed`. -/
inductive SubState where
  | idle | streaming | closed
deriving Repr, DecidableEq

/-- The state `StellarTrigger.trigger` keeps: the `closeFunction` handle set
by `startStreaming` (present iff a stream was opened) and the subscription's
lifecycle state. -/
structure TriggerSim where
  closeHandle : Option Unit
  sub : SubState
deriving Repr, DecidableEq

/-- State before `startStreaming` runs: no handle, nothing open. -/
def initialTrigger : TriggerSim := { closeHandle := none, sub := SubState.idle }

/-- The stream source the `switch (event)` selects: the endpoint collection
and the optional account filter (only the four account-filterable events use
`accountId`; `ledgers` and `trades` ignore it). -/
structure StreamSource where
  collection : String
  account : Option String
  cursor : String
deriving Repr, DecidableEq

/-- The `switch (event)` of `startStreaming` (lines 122-151 of
`StellarTrigger.node.ts`); an unknown event value throws. -/
def selectStream (event accountId cursor : String) : Except String StreamSource :=
  if event = "transactions" ∨ event = "operations" ∨ event = "payments" ∨
      event = "effects" then
    Except.ok { collection := event,
                account := if accountId = "" then none else some accountId,
                cursor := cursor }
  else if event = "ledgers" ∨ event = "trades" then
    Except.ok { collection := event, account := none, cursor := cursor }
  else Except.error ("Unknown event type: " ++ event)

/-- `startStreaming` (lines 114-161): choose the stream source, open the
stream, and register its close handle in `closeFunction`. -/
def startStreaming (event accountId cursor : String) (_s : TriggerSim) :
    Except String TriggerSim :=
  match selectStream event accountId cursor with
  | Except.error e => Except.error e
  | Except.ok _src => Except.ok { closeHandle := some (), sub := SubState.streaming }

/-- `StellarTrigger.trigger` (lines 97-174): calls `startStreaming()` once
and returns the response whose `closeFunction` is `closeCallback`. -/
def triggerRun (event accountId cursor : String) : Except String TriggerSim :=
  startStreaming event accountId cursor initialTrigger

/-- The `closeCallback` teardown handle (lines 165-169): invoke the
registered close handle when it is defined, otherwise do nothing.  The `Bool`
records whether the handle was actually invoked. -/
def closeCallback (s : TriggerSim) : Bool × TriggerSim :=
  match s.closeHandle with
  | some _ => (true, { s with sub := SubState.closed })
  | none => (false, s)

/-- One delivery on the open stream: a message record, or a stream error. -/
inductive StreamEvent where
  | message (record : Json)
  | failure (e : String)
deriving Repr, BEq

/-- The observable run state while streaming: the trigger state, the items
emitted so far, and the error log. -/
structure RunState where
  sim : TriggerSim
  emitted : List Json
  log : List String
deriving Repr, BEq

/-- The two stream handlers (lines 154-159): `onmessage` emits the record,
`onerror` only writes `console.error('Stellar stream error:', …)`. -/
def handleStreamEvent (st : RunState) : StreamEvent → RunState
  | StreamEvent.message r => { st with emitted := st.emitted ++ [r] }
  | StreamEvent.failure e => { st with log := st.log ++ ["Stellar stream error: " ++ e] }

/-- Fold a whole delivery trace through the handlers. -/
def processEvents (st : RunState) (evs : List StreamEvent) : RunState :=
  evs.foldl handleStreamEvent st

/-- A concrete benign environment: every network call answers `Json.null`,
key derivation and parsing succeed with fixed values. -/
def env0 : Env :=
  { oracle := fun _ => Except.ok Json.null,
    keypairFromSecret := fun s => Except.ok { pub := "G" ++ s, secret := s },
    randomKeypair := { pub := "GRAND", secret := "SRAND" },
    jsonParse := fun _ => Except.ok (Json.arr []),
    parseXdr := fun _ _ => Except.ok { source := "GSRC", ops := [], passphrase := "",
                                       fee := stdFee, timeout := 30, signatures := [] },
    toXdr := fun _ => "XDR" }

/-- Custom-network credentials with horizon URL and passphrase configured but
no secret key and no Soroban RPC URL. -/
def credCustomNoRpc : Credentials :=
  { network := NetworkType.custom,
    customHorizonUrl := some "https://horizon.example.org",
    customNetworkPassphrase := some "Example Network ; 2026",
    secretKey := none, sorobanRpcUrl := none }

/-- Plain testnet credentials with nothing else configured. -/
def credTestnet : Credentials := { network := NetworkType.testnet }

/-- The testnet execution context with no signing key. -/
def ctxNoKeyTestnet : Ctx :=
  { horizonUrl := "https://horizon-testnet.stellar.org",
    networkPassphrase := Networks.TESTNET, keypair := none,
    network := NetworkType.testnet, sorobanRpcUrl := none }

/-- A testnet context whose credentials set the optional `sorobanRpcUrl`. -/
def ctxTestnetOverride : Ctx :=
  { ctxNoKeyTestnet with sorobanRpcUrl := some "https://my-rpc.example" }

/-- An `invokeContract` input item. -/
def itemInvokeContract : ItemParams :=
  { resource := "soroban", operation := "invokeContract",
    contractId := "CABC", functionName := "hello", functionArgs := "[]" }

/-- A `sendPayment` input item. -/
def itemSendPayment : ItemParams :=
  { resource := "payment", operation := "sendPayment",
    destination := "GDEST", amount := "5", assetCode := "XLM" }

/-- A `getAssetInfo` item for XLM (with a stray issuer supplied). -/
def itemAssetInfoXLM : ItemParams :=
  { resource := "asset", operation := "getAssetInfo",
    assetCode := "XLM", assetIssuer := "GISSUER" }

/-- A `getAssetInfo` item for a non-native asset with its issuer. -/
def itemAssetInfoUSDC : ItemParams :=
  { resource := "asset", operation := "getAssetInfo",
    assetCode := "USDC", assetIssuer := "GISSUER" }

/-- A `getAssetInfo` item for a non-native asset code with no issuer. -/
def itemAssetInfoNoIssuer : ItemParams :=
  { resource := "asset", operation := "getAssetInfo",
    assetCode := "USDC", assetIssuer := "" }

/-- An item selecting a resource the dispatcher does not know. -/
def itemUnknownResource : ItemParams := { resource := "nope", operation := "x" }

/-- A `getHealth` soroban item. -/
def itemGetHealth : ItemParams := { resource := "soroban", operation := "getHealth" }

/-- Is a dispatch result a success? -/
def isOkResult (x : Except String Json) : Bool :=
  match x with
  | Except.ok _ => true
  | Except.error _ => false

set_option maxRecDepth 8000

theorem truthy_none : truthy none = false := rfl

/-- Under `continueOnFail`, the item loop never aborts: it returns exactly
the per-item outcomes, in input order. -/
theorem executeLoop_continueOnFail (env : Env) (ctx : Ctx) :
    ∀ items : List ItemParams,
      executeLoop env ctx true items = Except.ok (items.map (itemOutcome env ctx))
  | [] => rfl
  | p :: ps => by
    cases h : (dispatchItem env ctx p).2 with
    | error e =>
      simp [executeLoop, h, itemOutcome, Except.map,
            executeLoop_continueOnFail env ctx ps]
    | ok j =>
      simp [executeLoop, h, itemOutcome, Except.map,
            executeLoop_continueOnFail env ctx ps]

/-- C3: when the network selector is `custom`, each resolver
(`getHorizonUrl`, `getNetworkPassphrase`, `getSorobanRpcUrl`) fails with its
configuration error if the corresponding override is absent, and returns
exactly the supplied override value otherwise. -/
theorem C3_custom_network_resolvers (o : Option String) :
    (truthy o = false →
      getHorizonUrl NetworkType.custom o =
        Except.error "Custom Horizon URL required for custom network" ∧
      getNetworkPassphrase NetworkType.custom o =
        Except.error "Custom network passphrase required for custom network" ∧
      getSorobanRpcUrl NetworkType.custom o =
        Except.error "Custom Soroban RPC URL required for custom network") ∧
    (∀ u : String, o = some u → truthy o = true →
      getHorizonUrl NetworkType.custom o = Except.ok u ∧
      getNetworkPassphrase NetworkType.custom o = Except.ok u ∧
      getSorobanRpcUrl NetworkType.custom o = Except.ok u) := by
  constructor
  · intro h
    exact ⟨by simp [getHorizonUrl, h], by simp [getNetworkPassphrase, h],
           by simp [getSorobanRpcUrl, h]⟩
  · rintro u rfl h
    exact ⟨by simp [getHorizonUrl, h], by simp [getNetworkPassphrase, h],
           by simp [getSorobanRpcUrl, h]⟩

/-- Witness for C3 at concrete overrides: an absent override, an empty-string
override (falsy, the credential default), and a supplied URL. -/
theorem C3_custom_network_resolvers_witness :
    getHorizonUrl NetworkType.custom none =
      Except.error "Custom Horizon URL required for custom network" ∧
    getNetworkPassphrase NetworkType.custom (some "") =
      Except.error "Custom network passphrase required for custom network" ∧
    getSorobanRpcUrl NetworkType.custom (some "https://rpc.example") =
      Except.ok "https://rpc.example" :=
  ⟨((C3_custom_network_resolvers none).1 rfl).1,
   ((C3_custom_network_resolvers (some "")).1 rfl).2.1,
   ((C3_custom_network_resolvers (some "https://rpc.example")).2
      "https://rpc.example" rfl rfl).2.2⟩

/-- C4: for every non-custom network the resolvers return the fixed constant
Horizon URL, passphrase and Soroban RPC URL, for any override argument; in
particular testnet resolves to `https://horizon-testnet.stellar.org` and the
SDK testnet passphrase constant. -/
theorem C4_fixed_network_constants (o : Option String) :
    getHorizonUrl NetworkType.public o = Except.ok "https://horizon.stellar.org" ∧
    getNetworkPassphrase NetworkType.public o = Except.ok Networks.PUBLIC ∧
    getSorobanRpcUrl NetworkType.public o = Except.ok "https://soroban.stellar.org" ∧
    getHorizonUrl NetworkType.testnet o = Except.ok "https://horizon-testnet.stellar.org" ∧
    getNetworkPassphrase NetworkType.testnet o = Except.ok Networks.TESTNET ∧
    getSorobanRpcUrl NetworkType.testnet o = Except.ok "https://soroban-testnet.stellar.org" ∧
    getHorizonUrl NetworkType.futurenet o = Except.ok "https://horizon-futurenet.stellar.org" ∧
    getNetworkPassphrase NetworkType.futurenet o = Except.ok Networks.FUTURENET ∧
    getSorobanRpcUrl NetworkType.futurenet o = Except.ok "https://rpc-futurenet.stellar.org" :=
  ⟨rfl, rfl, rfl, rfl, rfl, rfl, rfl, rfl, rfl⟩

/-- C9: dispatching `resource=asset, operation=getAssetInfo` with
`assetCode=XLM` returns exactly the fixed native payload and attempts no
network call (the call list is empty), whatever the issuer. -/
theorem C9_getAssetInfo_xlm (env : Env) (ctx : Ctx) (p : ItemParams)
    (hr : p.resource = "asset") (ho : p.operation = "getAssetInfo")
    (hc : p.assetCode = "XLM") :
    dispatchItem env ctx p =
      ([], Except.ok (Json.obj [("type", Json.str "native"),
                                ("code", Json.str "XLM"), ("issuer", Json.null)])) := by
  simp [dispatchItem, hr, ho, hc]

/-- Witness for C9 on a concrete XLM item (with a stray issuer supplied). -/
theorem C9_getAssetInfo_xlm_witness :
    dispatchItem env0 ctxNoKeyTestnet itemAssetInfoXLM =
      ([], Except.ok (Json.obj [("type", Json.str "native"),
                                ("code", Json.str "XLM"), ("issuer", Json.null)])) :=
  C9_getAssetInfo_xlm env0 ctxNoKeyTestnet itemAssetInfoXLM rfl rfl rfl

/-- C10: `getAssetInfo` with an empty issuer returns the fixed native payload
(code `XLM`, the supplied asset code discarded) with no network call, for any
asset code; the Horizon assets query is issued exactly when the code is not
`XLM` and the issuer is non-empty. -/
theorem C10_getAssetInfo_native_shortcut (env : Env) (ctx : Ctx) (p : ItemParams)
    (hr : p.resource = "asset") (ho : p.operation = "getAssetInfo") :
    (p.assetIssuer = "" →
      dispatchItem env ctx p =
        ([], Except.ok (Json.obj [("type", Json.str "native"),
                                  ("code", Json.str "XLM"), ("issuer", Json.null)]))) ∧
    (p.assetCode ≠ "XLM" → p.assetIssuer ≠ "" →
      (dispatchItem env ctx p).1 =
        [NetCall.assetsQuery ctx.horizonUrl p.assetCode p.assetIssuer]) := by
  constructor
  · intro hi
    simp [dispatchItem, hr, ho, hi]
  · intro hc hi
    simp [dispatchItem, hr, ho, hc, hi]

/-- Witness for C10: a non-XLM code with no issuer yields the native payload
without a call; the same code with an issuer issues exactly the assets
query. -/
theorem C10_getAssetInfo_native_shortcut_witness :
    dispatchItem env0 ctxNoKeyTestnet itemAssetInfoNoIssuer =
      ([], Except.ok (Json.obj [("type", Json.str "native"),
                                ("code", Json.str "XLM"), ("issuer", Json.null)])) ∧
    (dispatchItem env0 ctxNoKeyTestnet itemAssetInfoUSDC).1 =
      [NetCall.assetsQuery "https://horizon-testnet.stellar.org" "USDC" "GISSUER"] :=
  ⟨(C10_getAssetInfo_native_shortcut env0 ctxNoKeyTestnet itemAssetInfoNoIssuer rfl rfl).1 rfl,
   (C10_getAssetInfo_native_shortcut env0 ctxNoKeyTestnet itemAssetInfoUSDC rfl rfl).2
     (by decide) (by decide)⟩

/-- C1 counterexample: `invokeContract` requires a signing key and none is
configured, yet on a custom network with no Soroban RPC URL the item fails
with the RPC-URL configuration error, not a `Secret key required`
precondition message (still before any network call). -/
theorem C1_secret_key_counterexample :
    requiresSigningKey itemInvokeContract.resource itemInvokeContract.operation = true ∧
    truthy credCustomNoRpc.secretKey = false ∧
    execute env0 credCustomNoRpc true [itemInvokeContract] =
      Except.ok [errorPayload "Custom Soroban RPC URL required for custom network"] ∧
    secretKeyMsg "Custom Soroban RPC URL required for custom network" = false :=
  ⟨rfl, rfl, rfl, rfl⟩

/-- C1 (amended): with no signing key configured, dispatching any item whose
operation requires one fails before any network call (the call list is
empty); the failure carries a `Secret key required…` message, except that a
Soroban operation on a custom network with no Soroban RPC URL configured
fails first with the RPC-URL configuration error. -/
theorem C1_secret_key_precondition (env : Env) (ctx : Ctx) (p : ItemParams)
    (hkey : ctx.keypair = none)
    (hreq : requiresSigningKey p.resource p.operation = true) :
    (dispatchItem env ctx p).1 = [] ∧
    ∃ e, (dispatchItem env ctx p).2 = Except.error e ∧
      (secretKeyMsg e = true ∨
        (p.resource = "soroban" ∧ ctx.network = NetworkType.custom ∧
         truthy ctx.sorobanRpcUrl = false ∧
         e = "Custom Soroban RPC URL required for custom network")) := by
  by_cases h1 : p.resource = "account"
  · simp [requiresSigningKey, h1] at hreq
    rcases hreq with ((h2 | h2) | h2) | h2
    · exact ⟨by simp [dispatchItem, h1, h2, hkey], "Secret key required for creating accounts",
             by simp [dispatchItem, h1, h2, hkey], Or.inl rfl⟩
    · exact ⟨by simp [dispatchItem, h1, h2, hkey], "Secret key required for merging accounts",
             by simp [dispatchItem, h1, h2, hkey], Or.inl rfl⟩
    · exact ⟨by simp [dispatchItem, h1, h2, hkey], "Secret key required for setting data",
             by simp [dispatchItem, h1, h2, hkey], Or.inl rfl⟩
    · exact ⟨by simp [dispatchItem, h1, h2, hkey], "Secret key required for setting options",
             by simp [dispatchItem, h1, h2, hkey], Or.inl rfl⟩
  · by_cases h2 : p.resource = "payment"
    · simp [requiresSigningKey, h1, h2] at hreq
      rcases hreq with ((h3 | h3) | h3) | h3
      · exact ⟨by simp [dispatchItem, h1, h2, h3, hkey], "Secret key required for payments",
               by simp [dispatchItem, h1, h2, h3, hkey], Or.inl rfl⟩
      · exact ⟨by simp [dispatchItem, h1, h2, h3, hkey], "Secret key required for path payments",
               by simp [dispatchItem, h1, h2, h3, hkey], Or.inl rfl⟩
      · exact ⟨by simp [dispatchItem, h1, h2, h3, hkey], "Secret key required",
               by simp [dispatchItem, h1, h2, h3, hkey], Or.inl rfl⟩
      · exact ⟨by simp [dispatchItem, h1, h2, h3, hkey], "Secret key required",
               by simp [dispatchItem, h1, h2, h3, hkey], Or.inl rfl⟩
    · by_cases h3 : p.resource = "asset"
      · simp [requiresSigningKey, h1, h2, h3] at hreq
        rcases hreq with h4 | h4
        · exact ⟨by simp [dispatchItem, h1, h2, h3, h4, hkey], "Secret key required for trustlines",
                 by simp [dispatchItem, h1, h2, h3, h4, hkey], Or.inl rfl⟩
        · exact ⟨by simp [dispatchItem, h1, h2, h3, h4, hkey], "Secret key required",
                 by simp [dispatchItem, h1, h2, h3, h4, hkey], Or.inl rfl⟩
      · by_cases h4 : p.resource = "dex"
        · simp [requiresSigningKey, h1, h2, h3, h4] at hreq
          rcases hreq with ((h5 | h5) | h5) | h5
          · exact ⟨by simp [dispatchItem, h1, h2, h3, h4, h5, hkey], "Secret key required",
                   by simp [dispatchItem, h1, h2, h3, h4, h5, hkey], Or.inl rfl⟩
          · exact ⟨by simp [dispatchItem, h1, h2, h3, h4, h5, hkey], "Secret key required",
                   by simp [dispatchItem, h1, h2, h3, h4, h5, hkey], Or.inl rfl⟩
          · exact ⟨by simp [dispatchItem, h1, h2, h3, h4, h5, hkey], "Secret key required",
                   by simp [dispatchItem, h1, h2, h3, h4, h5, hkey], Or.inl rfl⟩
          · exact ⟨by simp [dispatchItem, h1, h2, h3, h4, h5, hkey],
                   "Secret key required to list your offers",
                   by simp [dispatchItem, h1, h2, h3, h4, h5, hkey], Or.inl rfl⟩
        · by_cases h5 : p.resource = "transaction"
          · simp [requiresSigningKey, h1, h2, h3, h4, h5] at hreq
            exact ⟨by simp [dispatchItem, h1, h2, h3, h4, h5, hreq, hkey],
                   "Secret key required for signing",
                   by simp [dispatchItem, h1, h2, h3, h4, h5, hreq, hkey], Or.inl rfl⟩
          · by_cases h6 : p.resource = "soroban"
            · simp [requiresSigningKey, h1, h2, h3, h4, h5, h6] at hreq
              cases hs : truthy ctx.sorobanRpcUrl with
              | true =>
                rcases hreq with h7 | h7
                · exact ⟨by simp [dispatchItem, h1, h2, h3, h4, h5, h6, h7, hs, hkey],
                    "Secret key required for contract operations",
                    by simp [dispatchItem, h1, h2, h3, h4, h5, h6, h7, hs, hkey], Or.inl rfl⟩
                · exact ⟨by simp [dispatchItem, h1, h2, h3, h4, h5, h6, h7, hs, hkey],
                    "Secret key required for contract operations",
                    by simp [dispatchItem, h1, h2, h3, h4, h5, h6, h7, hs, hkey], Or.inl rfl⟩
              | false =>
                cases hnet : ctx.network with
                | custom =>
                  rcases hreq with h7 | h7
                  · exact ⟨by simp [dispatchItem, h1, h2, h3, h4, h5, h6, h7, hs, hnet, hkey,
                        getSorobanRpcUrl, truthy_none],
                      "Custom Soroban RPC URL required for custom network",
                      by simp [dispatchItem, h1, h2, h3, h4, h5, h6, h7, hs, hnet, hkey,
                        getSorobanRpcUrl, truthy_none],
                      Or.inr ⟨h6, rfl, rfl, rfl⟩⟩
                  · exact ⟨by simp [dispatchItem, h1, h2, h3, h4, h5, h6, h7, hs, hnet, hkey,
                        getSorobanRpcUrl, truthy_none],
                      "Custom Soroban RPC URL required for custom network",
                      by simp [dispatchItem, h1, h2, h3, h4, h5, h6, h7, hs, hnet, hkey,
                        getSorobanRpcUrl, truthy_none],
                      Or.inr ⟨h6, rfl, rfl, rfl⟩⟩
                | public =>
                  rcases hreq with h7 | h7
                  · exact ⟨by simp [dispatchItem, h1, h2, h3, h4, h5, h6, h7, hs, hnet, hkey,
                        getSorobanRpcUrl, truthy_none],
                      "Secret key required for contract operations",
                      by simp [dispatchItem, h1, h2, h3, h4, h5, h6, h7, hs, hnet, hkey,
                        getSorobanRpcUrl, truthy_none], Or.inl rfl⟩
                  · exact ⟨by simp [dispatchItem, h1, h2, h3, h4, h5, h6, h7, hs, hnet, hkey,
                        getSorobanRpcUrl, truthy_none],
                      "Secret key required for contract operations",
                      by simp [dispatchItem, h1, h2, h3, h4, h5, h6, h7, hs, hnet, hkey,
                        getSorobanRpcUrl, truthy_none], Or.inl rfl⟩
                | testnet =>
                  rcases hreq with h7 | h7
                  · exact ⟨by simp [dispatchItem, h1, h2, h3, h4, h5, h6, h7, hs, hnet, hkey,
                        getSorobanRpcUrl, truthy_none],
                      "Secret key required for contract operations",
                      by simp [dispatchItem, h1, h2, h3, h4, h5, h6, h7, hs, hnet, hkey,
                        getSorobanRpcUrl, truthy_none], Or.inl rfl⟩
                  · exact ⟨by simp [dispatchItem, h1, h2, h3, h4, h5, h6, h7, hs, hnet, hkey,
                        getSorobanRpcUrl, truthy_none],
                      "Secret key required for contract operations",
                      by simp [dispatchItem, h1, h2, h3, h4, h5, h6, h7, hs, hnet, hkey,
                        getSorobanRpcUrl, truthy_none], Or.inl rfl⟩
                | futurenet =>
                  rcases hreq with h7 | h7
                  · exact ⟨by simp [dispatchItem, h1, h2, h3, h4, h5, h6, h7, hs, hnet, hkey,
                        getSorobanRpcUrl, truthy_none],
                      "Secret key required for contract operations",
                      by simp [dispatchItem, h1, h2, h3, h4, h5, h6, h7, hs, hnet, hkey,
                        getSorobanRpcUrl, truthy_none], Or.inl rfl⟩
                  · exact ⟨by simp [dispatchItem, h1, h2, h3, h4, h5, h6, h7, hs, hnet, hkey,
                        getSorobanRpcUrl, truthy_none],
                      "Secret key required for contract operations",
                      by simp [dispatchItem, h1, h2, h3, h4, h5, h6, h7, hs, hnet, hkey,
                        getSorobanRpcUrl, truthy_none], Or.inl rfl⟩
            · simp [requiresSigningKey, h1, h2, h3, h4, h5, h6] at hreq

/-- Witness for the amended C1 on a concrete `sendPayment` item with no
signing key configured. -/
theorem C1_secret_key_precondition_witness :
    (dispatchItem env0 ctxNoKeyTestnet itemSendPayment).1 = [] ∧
    ∃ e, (dispatchItem env0 ctxNoKeyTestnet itemSendPayment).2 = Except.error e ∧
      (secretKeyMsg e = true ∨
        (itemSendPayment.resource = "soroban" ∧
         ctxNoKeyTestnet.network = NetworkType.custom ∧
         truthy ctxNoKeyTestnet.sorobanRpcUrl = false ∧
         e = "Custom Soroban RPC URL required for custom network")) :=
  C1_secret_key_precondition env0 ctxNoKeyTestnet itemSendPayment rfl rfl

/-- C2: with `continueOnFail` enabled, `execute` on N items returns exactly
N output payloads in input order; each item's slot is its own outcome — the
normal payload on success and `{error: message}` on failure — computed from
that item alone, so one item's failure cannot affect any other's result. -/
theorem C2_continueOnFail_one_result_per_item (env : Env) (cred : Credentials)
    (items : List ItemParams) (hu hp : String) (kp : Option Keypair)
    (h1 : getHorizonUrl cred.network cred.customHorizonUrl = Except.ok hu)
    (h2 : getNetworkPassphrase cred.network cred.customNetworkPassphrase = Except.ok hp)
    (h3 : keypairSetup env cred = Except.ok kp) :
    execute env cred true items =
      Except.ok (items.map (itemOutcome env
        { horizonUrl := hu, networkPassphrase := hp, keypair := kp,
          network := cred.network, sorobanRpcUrl := cred.sorobanRpcUrl })) ∧
    (items.map (itemOutcome env
        { horizonUrl := hu, networkPassphrase := hp, keypair := kp,
          network := cred.network, sorobanRpcUrl := cred.sorobanRpcUrl })).length =
      items.length := by
  refine ⟨?_, by simp⟩
  simp [execute, h1, h2, h3, executeLoop_continueOnFail]

/-- Witness for C2: two items on testnet (one succeeding locally, one with an
unknown resource) yield exactly two payloads in order. -/
theorem C2_continueOnFail_one_result_per_item_witness :
    execute env0 credTestnet true [itemAssetInfoXLM, itemUnknownResource] =
      Except.ok ([itemAssetInfoXLM, itemUnknownResource].map
        (itemOutcome env0 ctxNoKeyTestnet)) ∧
    ([itemAssetInfoXLM, itemUnknownResource].map
        (itemOutcome env0 ctxNoKeyTestnet)).length =
      [itemAssetInfoXLM, itemUnknownResource].length :=
  C2_continueOnFail_one_result_per_item env0 credTestnet
    [itemAssetInfoXLM, itemUnknownResource]
    "https://horizon-testnet.stellar.org" Networks.TESTNET none rfl rfl rfl

/-- C6: without `continueOnFail`, the first failing item aborts the batch:
after any prefix of items that dispatch successfully, an item whose dispatch
fails makes the whole loop rethrow that error, so no result list is produced
for it or any later item. -/
theorem C6_abort_without_continueOnFail (env : Env) (ctx : Ctx) (p : ItemParams)
    (post : List ItemParams) (e : String) :
    ∀ pre : List ItemParams,
      (∀ q ∈ pre, isOkResult (dispatchItem env ctx q).2 = true) →
      (dispatchItem env ctx p).2 = Except.error e →
      executeLoop env ctx false (pre ++ p :: post) = Except.error e
  | [], _, he => by simp [executeLoop, he]
  | q :: qs, hok, he => by
    have hq := hok q (List.mem_cons_self q qs)
    cases hj : (dispatchItem env ctx q).2 with
    | error e2 =>
      rw [hj] at hq
      simp [isOkResult] at hq
    | ok j =>
      have ih := C6_abort_without_continueOnFail env ctx p post e qs
        (fun r hr => hok r (List.mem_cons_of_mem q hr)) he
      simp [executeLoop, hj, ih, Except.map]

/-- Witness for C6: a succeeding item followed by an unknown-resource item
and one more item; the loop rethrows the unknown-resource error. -/
theorem C6_abort_without_continueOnFail_witness :
    executeLoop env0 ctxNoKeyTestnet false
      ([itemAssetInfoXLM] ++ itemUnknownResource :: [itemGetHealth]) =
      Except.error "Unknown resource: nope" :=
  C6_abort_without_continueOnFail env0 ctxNoKeyTestnet itemUnknownResource
    [itemGetHealth] "Unknown resource: nope" [itemAssetInfoXLM]
    (by intro q hq
        have hq2 : q = itemAssetInfoXLM := by simpa using hq
        rw [hq2]
        rfl)
    rfl

/-- C5: whenever `trigger` returns (rather than throwing), `startStreaming`
has registered the close handle, so teardown invokes it and closes the
subscription; and on a state where streaming never started the teardown
callback is a no-op that invokes nothing. -/
theorem C5_trigger_teardown (event accountId cursor : String) (s : TriggerSim)
    (h : triggerRun event accountId cursor = Except.ok s) :
    s.closeHandle = some () ∧
    closeCallback s = (true, { s with sub := SubState.closed }) ∧
    ((closeCallback s).2).sub = SubState.closed ∧
    (∀ t : TriggerSim, t.closeHandle = none → closeCallback t = (false, t)) := by
  have hs : s = { closeHandle := some (), sub := SubState.streaming } := by
    unfold triggerRun startStreaming at h
    cases hsel : selectStream event accountId cursor with
    | error e =>
      rw [hsel] at h
      cases h
    | ok src =>
      rw [hsel] at h
      injection h with h
      exact h.symm
  subst hs
  refine ⟨rfl, rfl, rfl, ?_⟩
  intro t ht
  obtain ⟨ch, sub⟩ := t
  simp only at ht
  subst ht
  rfl

/-- Witness for C5: activating on the default `payments` event and tearing
down immediately. -/
theorem C5_trigger_teardown_witness :
    ({ closeHandle := some (), sub := SubState.streaming } : TriggerSim).closeHandle =
      some () ∧
    closeCallback { closeHandle := some (), sub := SubState.streaming } =
      (true, { closeHandle := some (), sub := SubState.closed }) ∧
    ((closeCallback { closeHandle := some (), sub := SubState.streaming }).2).sub =
      SubState.closed ∧
    (∀ t : TriggerSim, t.closeHandle = none → closeCallback t = (false, t)) :=
  C5_trigger_teardown "payments" "" "now"
    { closeHandle := some (), sub := SubState.streaming } rfl

/-- C7: processing any trace of stream deliveries leaves the trigger state
untouched — in particular a stream error only appends a log line: the close
handle is never invoked and the subscription stays exactly as it was. -/
theorem C7_stream_errors_nonfatal (st : RunState) (evs : List StreamEvent) :
    (processEvents st evs).sim = st.sim ∧
    (∀ e : String, handleStreamEvent st (StreamEvent.failure e) =
      { st with log := st.log ++ ["Stellar stream error: " ++ e] }) := by
  constructor
  · induction evs generalizing st with
    | nil => rfl
    | cons ev rest ih =>
      have hstep : (handleStreamEvent st ev).sim = st.sim := by
        cases ev <;> rfl
      calc (processEvents st (ev :: rest)).sim
          = (processEvents (handleStreamEvent st ev) rest).sim := rfl
        _ = (handleStreamEvent st ev).sim := ih (handleStreamEvent st ev)
        _ = st.sim := hstep
  · intro e
    rfl

/-- C8 counterexample: on testnet (a non-custom network) with the optional
`sorobanRpcUrl` credential set, the soroban branch sends its request to the
override URL, not to the fixed testnet Soroban RPC constant. -/
theorem C8_network_config_counterexample :
    ctxTestnetOverride.network = NetworkType.testnet ∧
    (dispatchItem env0 ctxTestnetOverride itemGetHealth).1 =
      [NetCall.sorobanGetHealth "https://my-rpc.example"] ∧
    SOROBAN_RPC_URLS NetworkType.testnet = some "https://soroban-testnet.stellar.org" ∧
    "https://my-rpc.example" ≠ "https://soroban-testnet.stellar.org" :=
  ⟨rfl, rfl, rfl, by decide⟩

/-- C8 (amended): for non-custom networks the Horizon URL and passphrase used
are the fixed constants, and the Soroban RPC URL is its fixed constant only
when the optional `sorobanRpcUrl` credential is unset — when set, the
override is used on any network; for the custom network, the Horizon URL,
passphrase and (for soroban operations) the Soroban RPC URL must each be
supplied or resolution fails with its configuration error. -/
theorem C8_network_config_invariant (n : NetworkType) (o : Option String) (ctx : Ctx) :
    (n ≠ NetworkType.custom →
      getHorizonUrl n o = Except.ok ((HORIZON_URLS n).getD "") ∧
      getNetworkPassphrase n o = Except.ok ((NETWORK_PASSPHRASES n).getD "") ∧
      (ctx.network = n → truthy ctx.sorobanRpcUrl = false →
        resolveSorobanRpcUrlExec ctx = Except.ok ((SOROBAN_RPC_URLS n).getD ""))) ∧
    (∀ u : String, ctx.sorobanRpcUrl = some u → truthy ctx.sorobanRpcUrl = true →
      resolveSorobanRpcUrlExec ctx = Except.ok u) ∧
    (truthy o = false →
      getHorizonUrl NetworkType.custom o =
        Except.error "Custom Horizon URL required for custom network" ∧
      getNetworkPassphrase NetworkType.custom o =
        Except.error "Custom network passphrase required for custom network") ∧
    (ctx.network = NetworkType.custom → truthy ctx.sorobanRpcUrl = false →
      resolveSorobanRpcUrlExec ctx =
        Except.error "Custom Soroban RPC URL required for custom network") ∧
    (truthy o = true → ∀ u : String, o = some u →
      getHorizonUrl NetworkType.custom o = Except.ok u ∧
      getNetworkPassphrase NetworkType.custom o = Except.ok u) := by
  refine ⟨?_, ?_, ?_, ?_, ?_⟩
  · intro hn
    refine ⟨by simp [getHorizonUrl, hn], by simp [getNetworkPassphrase, hn], ?_⟩
    intro hcn hs
    simp [resolveSorobanRpcUrlExec, hs, getSorobanRpcUrl, hcn, hn]
  · intro u hu hs
    rw [hu] at hs
    simp [resolveSorobanRpcUrlExec, hu, hs]
  · intro ho
    exact ⟨by simp [getHorizonUrl, ho], by simp [getNetworkPassphrase, ho]⟩
  · intro hcn hs
    simp [resolveSorobanRpcUrlExec, hs, getSorobanRpcUrl, hcn, truthy_none]
  · rintro ho u rfl
    exact ⟨by simp [getHorizonUrl, ho], by simp [getNetworkPassphrase, ho]⟩

/-- Witness for the amended C8 on testnet, both with and without the
`sorobanRpcUrl` override, and on a custom network missing its overrides. -/
theorem C8_network_config_invariant_witness :
    (getHorizonUrl NetworkType.testnet none =
        Except.ok "https://horizon-testnet.stellar.org" ∧
      getNetworkPassphrase NetworkType.testnet none = Except.ok Networks.TESTNET ∧
      resolveSorobanRpcUrlExec ctxNoKeyTestnet =
        Except.ok "https://soroban-testnet.stellar.org") ∧
    resolveSorobanRpcUrlExec ctxTestnetOverride = Except.ok "https://my-rpc.example" ∧
    getHorizonUrl NetworkType.custom none =
      Except.error "Custom Horizon URL required for custom network" := by
  have hmain := C8_network_config_invariant NetworkType.testnet none ctxNoKeyTestnet
  have h1 := hmain.1 (by decide)
  refine ⟨⟨h1.1, h1.2.1, h1.2.2 rfl rfl⟩, ?_, ?_⟩
  · exact (C8_network_config_invariant NetworkType.testnet none ctxTestnetOverride).2.1
      "https://my-rpc.example" rfl rfl
  · exact ((C8_network_config_invariant NetworkType.custom none ctxNoKeyTestnet).2.2.1
      rfl).1
